import Mathlib

/-!
Verification of the rospo embedded SSH server core (`pkg/sshd/server.go`).

The Go source is embedded shallowly and sequentially:

* `keyAuth` / `loadAuthorizedKeys`: the public-key authentication callback.
  The authorized-keys file is modelled by `KeysFile`: either the list of
  marshaled public keys its entries parse to, or a read / parse failure.
  `log.Fatal`-style process aborts are modelled by the `AuthResult.fatal`
  outcome.
* `handleRequest`: one iteration of `sshServer.handleRequests` for a single
  global request.  The forwards registry (a Go map guarded by `forwadsMu`)
  is an association list with map semantics; side effects (replies, listener
  closes, the unbuffered stop-channel rendezvous, goroutine starts, map
  installation) are emitted as an ordered `Event` trace.  The result of
  `net.Listen` is an environment parameter (`Option Nat`, a fresh listener
  id on success).  The mutex itself is not modelled: the request loop is
  serial, so its critical sections appear in program order in the trace.
* `checkAliveStep`: one `select` iteration of the supervisor closure
  `checkAliveFun` (a ticker tick whose `checkalive@rospo` probe either
  succeeds or returns a transport error, or a receive on the stop channel).
* `handleChannel`: the dispatch of `sshServer.handleChannels` on one
  incoming channel-open request.

Machine integers (`uint32` ports, payload bytes) are `Nat`s; the wire
marshaling of `(string, uint32)` payloads follows the SSH encoding used by
`ssh.Unmarshal` / `ssh.Marshal` (big-endian `uint32`, length-prefixed
string, no trailing bytes).
-/

namespace Rospo

/-! ## Authorized keys and the authentication callback -/

/-- The authorized-keys file as seen by one call to `loadAuthorizedKeys`:
either it reads and fully parses to a list of marshaled public keys, or
reading fails (`ioutil.ReadFile` error), or `ssh.ParseAuthorizedKey` fails
on some entry. -/
inductive KeysFile where
  | content (keys : List (List Nat))
  | readError
  | parseError
deriving DecidableEq

/-- A candidate public key: its wire (marshaled) bytes, its SHA-256
fingerprint (`ssh.FingerprintSHA256`, an external collaborator, kept
abstract as an attribute), and its algorithm name. -/
structure PublicKey where
  marshaled : List Nat
  fingerprint : String
  keyType : String
deriving DecidableEq

/-- Outcome of the `keyAuth` callback.  `fatal` models the `log.Fatal` /
`log.Fatalf` calls inside `loadAuthorizedKeys`, which terminate the whole
process. -/
inductive AuthResult where
  | fatal
  | ok (extensions : List (String × String))
  | err (msg : String)
deriving DecidableEq

/-- `sshServer.loadAuthorizedKeys`: read the configured file and build the
set of marshaled public keys.  On read error it calls `log.Fatalf`, on a
parse error `log.Fatal`; both abort the process (`none`). -/
def loadAuthorizedKeys : KeysFile → Option (List (List Nat))
  | KeysFile.content keys => some keys
  | KeysFile.readError => none
  | KeysFile.parseError => none

/-- `sshServer.keyAuth`: reload the authorized keys, then authenticate by
exact byte equality of the candidate's marshaled key.  On success the
returned permissions carry the single extension `pubkey-fp` with the
SHA-256 fingerprint; on failure the error is
`fmt.Errorf("unknown public key for %q", conn.User())` (the `%q` verb
wraps the user name in double quotes). -/
def keyAuth (file : KeysFile) (user : String) (pubKey : PublicKey) : AuthResult :=
  match loadAuthorizedKeys file with
  | none => AuthResult.fatal
  | some authorizedKeysMap =>
    if authorizedKeysMap.contains pubKey.marshaled then
      AuthResult.ok [("pubkey-fp", pubKey.fingerprint)]
    else
      AuthResult.err ("unknown public key for \"" ++ user ++ "\"")

/-! ## Wire encoding of forward payloads -/

/-- Read a big-endian `uint32` from the front of a byte list
(`ssh.Unmarshal` on a `uint32` field). -/
def readUint32 : List Nat → Option (Nat × List Nat)
  | b0 :: b1 :: b2 :: b3 :: rest =>
      some (b0 * 16777216 + b1 * 65536 + b2 * 256 + b3, rest)
  | _ => none

/-- Big-endian `uint32` encoding (`ssh.Marshal` on a `uint32` field). -/
def marshalUint32 (n : Nat) : List Nat :=
  [n / 16777216 % 256, n / 65536 % 256, n / 256 % 256, n % 256]

/-- Decode raw bytes as a string, byte for byte (a Go `string(bytes)`
conversion; the addresses involved are ASCII). -/
def bytesToString (bs : List Nat) : String :=
  String.mk (bs.map Char.ofNat)

/-- Byte-for-byte encoding of a string (ASCII). -/
def stringToBytes (s : String) : List Nat :=
  s.data.map Char.toNat

/-- `ssh.Unmarshal` of the payload struct `{ Addr string; Port uint32 }`:
length-prefixed string, then a `uint32`, and no trailing bytes. -/
def unmarshalAddrPort (payload : List Nat) : Option (String × Nat) :=
  match readUint32 payload with
  | none => none
  | some (len, rest) =>
    if len ≤ rest.length then
      match readUint32 (rest.drop len) with
      | none => none
      | some (port, rest2) =>
        if rest2.isEmpty then some (bytesToString (rest.take len), port) else none
    else none

/-- `ssh.Marshal` of the payload struct `{ Addr string; Port uint32 }`. -/
def marshalAddrPort (addr : String) (port : Nat) : List Nat :=
  marshalUint32 (stringToBytes addr).length ++ stringToBytes addr ++ marshalUint32 port

/-- `fmt.Sprintf("[%s]:%d", laddr, lport)`, the registry key. -/
def forwardAddr (laddr : String) (lport : Nat) : String :=
  "[" ++ laddr ++ "]:" ++ toString lport

/-! ## The forwards registry (a Go map with string keys) -/

/-- Lookup in the registry association list (`s.forwards[addr]`). -/
def lookupKey : List (String × Nat) → String → Option Nat
  | [], _ => none
  | (k, v) :: t, addr => if k = addr then some v else lookupKey t addr

/-- `delete(s.forwards, addr)`: after it, the key is absent. -/
def eraseKey (l : List (String × Nat)) (addr : String) : List (String × Nat) :=
  l.filter (fun p => !(p.1 == addr))

/-- `s.forwards[addr] = ln`: map assignment, so afterwards the key is bound
exactly once, to `ln`. -/
def setKey (l : List (String × Nat)) (addr : String) (ln : Nat) : List (String × Nat) :=
  (addr, ln) :: eraseKey l addr

/-- Number of bindings a key has in the registry. -/
def countKey (l : List (String × Nat)) (addr : String) : Nat :=
  (l.filter (fun p => p.1 == addr)).length

/-! ## `strings.Contains` -/

/-- Whether the pattern is an initial segment of the character list. -/
def leadingMatch : List Char → List Char → Bool
  | [], _ => true
  | _ :: _, [] => false
  | p :: ps, c :: cs => p == c && leadingMatch ps cs

/-- Whether the pattern occurs somewhere in the character list. -/
def containsSub (pat : List Char) : List Char → Bool
  | [] => pat.isEmpty
  | c :: t => leadingMatch pat (c :: t) || containsSub pat t

/-- `strings.Contains s pat`. -/
def stringContains (s pat : String) : Bool :=
  containsSub pat.data s.data

/-! ## Server state and the global-request handler -/

/-- Per-connection mutable state relevant to the request loop: the
forwards registry, plus the set of listener ids whose `Close()` has been
called (so that claims about stale closed listeners are expressible). -/
structure SrvState where
  forwards : List (String × Nat)
  closed : List Nat
deriving DecidableEq

/-- Observable side effects of the request handler and the supervisor, in
program order.  `stopRendezvous` is the completed send on the unbuffered
`checkAliveStop` channel (the send returns only when a supervisor has
received it); `installBinding` is the `s.forwards[addr] = ln` assignment;
`startAcceptLoop` and `startSupervisor` are the two `go` statements. -/
inductive Event where
  | reply (ok : Bool) (payload : List Nat)
  | closeListener (ln : Nat)
  | stopRendezvous
  | startAcceptLoop (ln : Nat)
  | startSupervisor (ln : Nat) (addr : String)
  | installBinding (addr : String) (ln : Nat)
  | logMsg (m : String)
deriving DecidableEq

/-- Whether an event is a `req.Reply` call. -/
def Event.isReply : Event → Bool
  | Event.reply _ _ => true
  | _ => false

/-- Result of handling one global request: the new state and the ordered
trace of side effects. -/
structure ReqStep where
  state : SrvState
  events : List Event
deriving DecidableEq

/-- One iteration of `sshServer.handleRequests` for the request
`(reqType, payload)`.  `listenResult` is the outcome of
`net.Listen("tcp", addr)` in the `tcpip-forward` branch: `some ln` binds a
fresh listener `ln`, `none` is a bind failure. -/
def handleRequest (st : SrvState) (reqType : String) (payload : List Nat)
    (listenResult : Option Nat) : ReqStep :=
  if reqType = "tcpip-forward" then
    match unmarshalAddrPort payload with
    | none => ⟨st, [Event.logMsg "Unable to unmarshal payload", Event.reply false []]⟩
    | some (laddr, lport) =>
      let addr := forwardAddr laddr lport
      -- under forwadsMu: close the old listener and stop its supervisor
      let closeOld : SrvState × List Event :=
        match lookupKey st.forwards addr with
        | some oldLn =>
          (⟨st.forwards, oldLn :: st.closed⟩,
           [Event.logMsg "closing old socket", Event.closeListener oldLn,
            Event.stopRendezvous])
        | none => (st, [])
      -- outside the lock: bind the new listener
      match listenResult with
      | none =>
        ⟨closeOld.1,
         closeOld.2 ++ [Event.logMsg ("listen failed for " ++ addr),
                        Event.reply false []]⟩
      | some newLn =>
        ⟨⟨setKey closeOld.1.forwards addr newLn, closeOld.1.closed⟩,
         closeOld.2 ++
           [Event.logMsg ("tcpip-forward listening for " ++ addr),
            Event.reply true (marshalUint32 lport),
            Event.startAcceptLoop newLn,
            Event.startSupervisor newLn addr,
            Event.installBinding addr newLn]⟩
  else if reqType = "cancel-tcpip-forward" then
    match unmarshalAddrPort payload with
    | none => ⟨st, [Event.logMsg "Unable to unmarshal payload", Event.reply false []]⟩
    | some (laddr, lport) =>
      let addr := forwardAddr laddr lport
      match lookupKey st.forwards addr with
      | some ln => ⟨⟨st.forwards, ln :: st.closed⟩, [Event.closeListener ln]⟩
      | none => ⟨st, []⟩
  else if stringContains reqType "keepalive" then
    ⟨st, [Event.reply true []]⟩
  else
    ⟨st, [Event.logMsg "received out-of-band request"]⟩

/-! ## The per-forward supervisor (`checkAliveFun`) -/

/-- One wakeup of the supervisor `select`: either the ticker fired and the
`checkalive@rospo` probe came back (with or without a transport error), or
the stop channel delivered a value. -/
inductive SupSignal where
  | tick (probeErr : Bool)
  | stopSignal
deriving DecidableEq

/-- Result of one supervisor iteration: the new state, its side effects,
and whether the goroutine returns. -/
structure SupStep where
  state : SrvState
  events : List Event
  exits : Bool
deriving DecidableEq

/-- One `select` iteration of `checkAliveFun(s, ln, addr)`.  On a probe
transport error: log, `ln.Close()`, then (under `forwadsMu`)
`delete(s.forwards, addr)`, and return.  On a successful probe: keep
looping.  On the stop channel: log and return, touching nothing. -/
def checkAliveStep (st : SrvState) (ln : Nat) (addr : String) : SupSignal → SupStep
  | SupSignal.tick true =>
    ⟨⟨eraseKey st.forwards addr, ln :: st.closed⟩,
     [Event.logMsg "forward endpoint not available anymore. Closing socket",
      Event.closeListener ln],
     true⟩
  | SupSignal.tick false => ⟨st, [], false⟩
  | SupSignal.stopSignal => ⟨st, [Event.logMsg "stop keep alive"], true⟩

/-! ## Channel dispatch (`handleChannels`) -/

/-- `ssh.RejectionReason` (the constants used by the server). -/
inductive RejectionReason where
  | prohibited
  | connectionFailed
  | unknownChannelType
  | resourceShortage
deriving DecidableEq

/-- What `handleChannels` does with one incoming channel-open request. -/
inductive ChannelDecision where
  | runSessionHandler
  | runDirectHandler
  | reject (reason : RejectionReason) (message : String)
deriving DecidableEq

/-- The dispatch of `sshServer.handleChannels` on one `ssh.NewChannel` of
type `chanType`. -/
def handleChannel (chanType : String) : ChannelDecision :=
  if chanType = "session" then ChannelDecision.runSessionHandler
  else if chanType = "direct-tcpip" then ChannelDecision.runDirectHandler
  else ChannelDecision.reject RejectionReason.unknownChannelType
    ("unknown channel type: " ++ chanType)

/-! ## Registry lemmas -/

theorem lookupKey_eraseKey (l : List (String × Nat)) (k : String) :
    lookupKey (eraseKey l k) k = none := by
  induction l with
  | nil => rfl
  | cons p t ih =>
    by_cases hk : p.1 = k
    · simpa [eraseKey, hk] using ih
    · simpa [eraseKey, List.filter_cons, hk, lookupKey] using ih

theorem countKey_eraseKey (l : List (String × Nat)) (k : String) :
    countKey (eraseKey l k) k = 0 := by
  induction l with
  | nil => rfl
  | cons p t ih =>
    by_cases hk : p.1 = k
    · simp [eraseKey, hk] at ih ⊢
      exact ih
    · simp [eraseKey, countKey, List.filter_cons, hk] at ih ⊢

theorem lookupKey_setKey (l : List (String × Nat)) (k : String) (v : Nat) :
    lookupKey (setKey l k v) k = some v := by
  simp [setKey, lookupKey]

theorem countKey_setKey (l : List (String × Nat)) (k : String) (v : Nat) :
    countKey (setKey l k v) k = 1 := by
  have h := countKey_eraseKey l k
  simp [setKey, countKey, List.filter_cons] at h ⊢
  simpa [countKey] using h

/-! ## Claim theorems -/

/-- C1: for every authentication attempt against an authorized-keys file
that loads successfully, `keyAuth` succeeds iff the candidate key's
marshaled wire bytes are in the freshly loaded set; on success the
permissions carry exactly the one extension `pubkey-fp` bound to the key's
SHA-256 fingerprint, and on failure the error is
`unknown public key for "<user>"`. -/
theorem keyAuth_membership (keys : List (List Nat)) (user : String) (pk : PublicKey) :
    (keys.contains pk.marshaled = true →
      keyAuth (KeysFile.content keys) user pk =
        AuthResult.ok [("pubkey-fp", pk.fingerprint)]) ∧
    (keys.contains pk.marshaled = false →
      keyAuth (KeysFile.content keys) user pk =
        AuthResult.err ("unknown public key for \"" ++ user ++ "\"")) := by
  constructor <;> intro h <;> simp [keyAuth, loadAuthorizedKeys, h] <;> simpa using h

theorem keyAuth_membership_witness :
    keyAuth (KeysFile.content [[1, 2, 3]]) "bob" ⟨[1, 2, 3], "SHA256:abc", "ssh-ed25519"⟩ =
      AuthResult.ok [("pubkey-fp", "SHA256:abc")] ∧
    keyAuth (KeysFile.content [[1, 2, 3]]) "bob" ⟨[4, 5], "SHA256:def", "ssh-rsa"⟩ =
      AuthResult.err ("unknown public key for \"" ++ "bob" ++ "\"") :=
  ⟨(keyAuth_membership [[1, 2, 3]] "bob" ⟨[1, 2, 3], "SHA256:abc", "ssh-ed25519"⟩).1 (by decide),
   (keyAuth_membership [[1, 2, 3]] "bob" ⟨[4, 5], "SHA256:def", "ssh-rsa"⟩).2 (by decide)⟩

/-- C7: the source's behavior at the failing input.  When the
authorized-keys file cannot be read or parsed during a runtime
authentication attempt, `loadAuthorizedKeys` calls `log.Fatalf` /
`log.Fatal`, so the whole process exits (`AuthResult.fatal`) instead of
merely failing the attempt as the specification requires. -/
theorem keyAuth_fatal_on_unreadable (user : String) (pk : PublicKey) :
    keyAuth KeysFile.readError user pk = AuthResult.fatal ∧
    keyAuth KeysFile.parseError user pk = AuthResult.fatal :=
  ⟨rfl, rfl⟩

/-- C4: one supervisor iteration.  On a probe transport error the
supervisor exits, having closed its listener and removed its registry
entry; on a stop signal it exits without closing any listener and with the
state untouched. -/
theorem checkAlive_exit_behavior (st : SrvState) (ln : Nat) (addr : String) :
    ((checkAliveStep st ln addr (SupSignal.tick true)).exits = true ∧
     Event.closeListener ln ∈ (checkAliveStep st ln addr (SupSignal.tick true)).events ∧
     lookupKey (checkAliveStep st ln addr (SupSignal.tick true)).state.forwards addr = none ∧
     (checkAliveStep st ln addr (SupSignal.tick true)).state.closed = ln :: st.closed) ∧
    ((checkAliveStep st ln addr SupSignal.stopSignal).exits = true ∧
     (checkAliveStep st ln addr SupSignal.stopSignal).state = st ∧
     ∀ k : Nat, Event.closeListener k ∉ (checkAliveStep st ln addr SupSignal.stopSignal).events) := by
  refine ⟨⟨rfl, ?_, ?_, rfl⟩, rfl, rfl, ?_⟩
  · simp [checkAliveStep]
  · simpa [checkAliveStep] using lookupKey_eraseKey st.forwards addr
  · intro k
    simp [checkAliveStep]

/-- C6: every channel-open whose type is neither `session` nor
`direct-tcpip` is rejected with `UnknownChannelType` and the message
`unknown channel type: <type>`. -/
theorem handleChannel_unknown_rejected (t : String)
    (h1 : t ≠ "session") (h2 : t ≠ "direct-tcpip") :
    handleChannel t = ChannelDecision.reject RejectionReason.unknownChannelType
      ("unknown channel type: " ++ t) := by
  simp [handleChannel, h1, h2]

theorem handleChannel_unknown_rejected_witness :
    handleChannel "x11" = ChannelDecision.reject RejectionReason.unknownChannelType
      ("unknown channel type: " ++ "x11") :=
  handleChannel_unknown_rejected "x11" (by decide) (by decide)

/-- C2: for every well-formed `tcpip-forward` request, a bind failure is
answered with exactly one reply, `false` with an empty payload (and the
request loop continues); a bind success is answered with exactly one
reply, `true`, whose payload is the marshaled `uint32` port taken
unchanged from the request (in particular a requested port `0` is echoed
as `0`, whatever port the listener actually got). -/
theorem tcpipForward_reply_spec (st : SrvState) (payload : List Nat) (laddr : String)
    (lport : Nat) (h : unmarshalAddrPort payload = some (laddr, lport)) :
    ((handleRequest st "tcpip-forward" payload none).events.filter Event.isReply =
      [Event.reply false []]) ∧
    (∀ newLn : Nat,
      (handleRequest st "tcpip-forward" payload (some newLn)).events.filter Event.isReply =
        [Event.reply true (marshalUint32 lport)]) := by
  constructor
  · cases hL : lookupKey st.forwards (forwardAddr laddr lport) <;>
      simp [handleRequest, h, hL, Event.isReply]
  · intro newLn
    cases hL : lookupKey st.forwards (forwardAddr laddr lport) <;>
      simp [handleRequest, h, hL, Event.isReply]

theorem tcpipForward_reply_spec_witness :
    ((handleRequest ⟨[], []⟩ "tcpip-forward" [0, 0, 0, 0, 0, 0, 0, 0] none).events.filter
        Event.isReply = [Event.reply false []]) ∧
    ((handleRequest ⟨[], []⟩ "tcpip-forward" [0, 0, 0, 0, 0, 0, 0, 0] (some 1)).events.filter
        Event.isReply = [Event.reply true (marshalUint32 0)]) :=
  ⟨(tcpipForward_reply_spec ⟨[], []⟩ [0, 0, 0, 0, 0, 0, 0, 0] "" 0 (by decide)).1,
   (tcpipForward_reply_spec ⟨[], []⟩ [0, 0, 0, 0, 0, 0, 0, 0] "" 0 (by decide)).2 1⟩

/-- C5: a global request whose type is neither `tcpip-forward` nor
`cancel-tcpip-forward` is acknowledged with `true` and an empty payload
when its type contains the substring `keepalive`; any other type is only
logged and receives no reply, and the state is untouched either way. -/
theorem keepalive_and_unknown_requests (st : SrvState) (t : String) (payload : List Nat)
    (listenResult : Option Nat) (h1 : t ≠ "tcpip-forward") (h2 : t ≠ "cancel-tcpip-forward") :
    (stringContains t "keepalive" = true →
      handleRequest st t payload listenResult = ⟨st, [Event.reply true []]⟩) ∧
    (stringContains t "keepalive" = false →
      handleRequest st t payload listenResult =
        ⟨st, [Event.logMsg "received out-of-band request"]⟩) := by
  constructor <;> intro h <;> simp [handleRequest, h1, h2, h]

theorem keepalive_and_unknown_requests_witness :
    handleRequest ⟨[], []⟩ "keepalive@openssh.com" [] none =
      ⟨⟨[], []⟩, [Event.reply true []]⟩ ∧
    handleRequest ⟨[], []⟩ "x11-req" [] none =
      ⟨⟨[], []⟩, [Event.logMsg "received out-of-band request"]⟩ :=
  ⟨(keepalive_and_unknown_requests ⟨[], []⟩ "keepalive@openssh.com" [] none
      (by decide) (by decide)).1 (by decide),
   (keepalive_and_unknown_requests ⟨[], []⟩ "x11-req" [] none
      (by decide) (by decide)).2 (by decide)⟩

/-- C9: a `tcpip-forward` or `cancel-tcpip-forward` request whose payload
fails to unmarshal as `(string, uint32)` only logs and replies `false`:
the state (registry and closed set) is unchanged, and no close, stop,
goroutine start or install event is emitted. -/
theorem malformed_payload_noop (st : SrvState) (payload : List Nat)
    (listenResult : Option Nat) (h : unmarshalAddrPort payload = none) :
    handleRequest st "tcpip-forward" payload listenResult =
      ⟨st, [Event.logMsg "Unable to unmarshal payload", Event.reply false []]⟩ ∧
    handleRequest st "cancel-tcpip-forward" payload listenResult =
      ⟨st, [Event.logMsg "Unable to unmarshal payload", Event.reply false []]⟩ := by
  constructor <;> simp [handleRequest, h]

theorem malformed_payload_noop_witness :
    handleRequest ⟨[("[]:9000", 7)], []⟩ "tcpip-forward" [0, 0] (some 8) =
      ⟨⟨[("[]:9000", 7)], []⟩,
       [Event.logMsg "Unable to unmarshal payload", Event.reply false []]⟩ ∧
    handleRequest ⟨[("[]:9000", 7)], []⟩ "cancel-tcpip-forward" [0, 0] (some 8) =
      ⟨⟨[("[]:9000", 7)], []⟩,
       [Event.logMsg "Unable to unmarshal payload", Event.reply false []]⟩ :=
  malformed_payload_noop ⟨[("[]:9000", 7)], []⟩ [0, 0] (some 8) (by decide)

/-- C8: a well-formed `cancel-tcpip-forward` request never changes the
registry mapping; it closes a listener exactly when a binding exists for
the requested address, so a cancel for an unknown address is a complete
no-op and repeating it is idempotent. -/
theorem cancelForward_spec (st : SrvState) (payload : List Nat) (laddr : String)
    (lport : Nat) (listenResult : Option Nat)
    (h : unmarshalAddrPort payload = some (laddr, lport)) :
    (handleRequest st "cancel-tcpip-forward" payload listenResult).state.forwards =
      st.forwards ∧
    ((∃ ln, lookupKey st.forwards (forwardAddr laddr lport) = some ln ∧
        (handleRequest st "cancel-tcpip-forward" payload listenResult).events =
          [Event.closeListener ln]) ∨
      (lookupKey st.forwards (forwardAddr laddr lport) = none ∧
        (handleRequest st "cancel-tcpip-forward" payload listenResult).events = [])) ∧
    (lookupKey st.forwards (forwardAddr laddr lport) = none →
      handleRequest st "cancel-tcpip-forward" payload listenResult = ⟨st, []⟩ ∧
      handleRequest (handleRequest st "cancel-tcpip-forward" payload listenResult).state
          "cancel-tcpip-forward" payload listenResult =
        handleRequest st "cancel-tcpip-forward" payload listenResult) := by
  cases hL : lookupKey st.forwards (forwardAddr laddr lport) with
  | none =>
    refine ⟨?_, Or.inr ⟨rfl, ?_⟩, ?_⟩ <;>
      simp [handleRequest, h, hL]
  | some ln =>
    refine ⟨?_, Or.inl ⟨ln, rfl, ?_⟩, ?_⟩ <;>
      simp [handleRequest, h, hL]

theorem cancelForward_spec_witness :
    ((handleRequest ⟨[("[]:9000", 7)], []⟩ "cancel-tcpip-forward"
        [0, 0, 0, 0, 0, 0, 35, 40] none).state.forwards = [("[]:9000", 7)] ∧
      ((∃ ln, lookupKey [("[]:9000", 7)] (forwardAddr "" 9000) = some ln ∧
          (handleRequest ⟨[("[]:9000", 7)], []⟩ "cancel-tcpip-forward"
            [0, 0, 0, 0, 0, 0, 35, 40] none).events = [Event.closeListener ln]) ∨
        (lookupKey [("[]:9000", 7)] (forwardAddr "" 9000) = none ∧
          (handleRequest ⟨[("[]:9000", 7)], []⟩ "cancel-tcpip-forward"
            [0, 0, 0, 0, 0, 0, 35, 40] none).events = []))) ∧
    handleRequest ⟨[("[]:8000", 7)], []⟩ "cancel-tcpip-forward"
        [0, 0, 0, 0, 0, 0, 35, 40] none = ⟨⟨[("[]:8000", 7)], []⟩, []⟩ :=
  ⟨⟨(cancelForward_spec ⟨[("[]:9000", 7)], []⟩ [0, 0, 0, 0, 0, 0, 35, 40] "" 9000 none
      (by decide)).1,
    (cancelForward_spec ⟨[("[]:9000", 7)], []⟩ [0, 0, 0, 0, 0, 0, 35, 40] "" 9000 none
      (by decide)).2.1⟩,
   ((cancelForward_spec ⟨[("[]:8000", 7)], []⟩ [0, 0, 0, 0, 0, 0, 35, 40] "" 9000 none
      (by decide)).2.2 (by decide)).1⟩

/-- C3: when a well-formed `tcpip-forward` request replaces an existing
binding and the new bind succeeds, the old listener's close and the
completed stop-channel rendezvous (the send on the unbuffered
`checkAliveStop` channel returns only once it is received) occur strictly
before the new supervisor goroutine is started, which in turn precedes the
installation of the new binding; afterwards the registry binds the address
exactly once, to the new listener. -/
theorem tcpipForward_replacement (st : SrvState) (payload : List Nat) (laddr : String)
    (lport : Nat) (oldLn newLn : Nat)
    (h : unmarshalAddrPort payload = some (laddr, lport))
    (hold : lookupKey st.forwards (forwardAddr laddr lport) = some oldLn) :
    (∃ i j k m : Nat, i < k ∧ j < k ∧ k < m ∧
      (handleRequest st "tcpip-forward" payload (some newLn)).events[i]? =
        some (Event.closeListener oldLn) ∧
      (handleRequest st "tcpip-forward" payload (some newLn)).events[j]? =
        some Event.stopRendezvous ∧
      (handleRequest st "tcpip-forward" payload (some newLn)).events[k]? =
        some (Event.startSupervisor newLn (forwardAddr laddr lport)) ∧
      (handleRequest st "tcpip-forward" payload (some newLn)).events[m]? =
        some (Event.installBinding (forwardAddr laddr lport) newLn)) ∧
    countKey (handleRequest st "tcpip-forward" payload (some newLn)).state.forwards
      (forwardAddr laddr lport) = 1 ∧
    lookupKey (handleRequest st "tcpip-forward" payload (some newLn)).state.forwards
      (forwardAddr laddr lport) = some newLn := by
  refine ⟨⟨1, 2, 6, 7, ?_, ?_, ?_, ?_, ?_, ?_, ?_⟩, ?_, ?_⟩ <;>
    simp [handleRequest, h, hold, countKey_setKey, lookupKey_setKey]

theorem tcpipForward_replacement_witness :
    (∃ i j k m : Nat, i < k ∧ j < k ∧ k < m ∧
      (handleRequest ⟨[("[]:9000", 7)], []⟩ "tcpip-forward"
        [0, 0, 0, 0, 0, 0, 35, 40] (some 8)).events[i]? =
        some (Event.closeListener 7) ∧
      (handleRequest ⟨[("[]:9000", 7)], []⟩ "tcpip-forward"
        [0, 0, 0, 0, 0, 0, 35, 40] (some 8)).events[j]? =
        some Event.stopRendezvous ∧
      (handleRequest ⟨[("[]:9000", 7)], []⟩ "tcpip-forward"
        [0, 0, 0, 0, 0, 0, 35, 40] (some 8)).events[k]? =
        some (Event.startSupervisor 8 (forwardAddr "" 9000)) ∧
      (handleRequest ⟨[("[]:9000", 7)], []⟩ "tcpip-forward"
        [0, 0, 0, 0, 0, 0, 35, 40] (some 8)).events[m]? =
        some (Event.installBinding (forwardAddr "" 9000) 8)) ∧
    countKey (handleRequest ⟨[("[]:9000", 7)], []⟩ "tcpip-forward"
      [0, 0, 0, 0, 0, 0, 35, 40] (some 8)).state.forwards (forwardAddr "" 9000) = 1 ∧
    lookupKey (handleRequest ⟨[("[]:9000", 7)], []⟩ "tcpip-forward"
      [0, 0, 0, 0, 0, 0, 35, 40] (some 8)).state.forwards (forwardAddr "" 9000) = some 8 :=
  tcpipForward_replacement ⟨[("[]:9000", 7)], []⟩ [0, 0, 0, 0, 0, 0, 35, 40]
    "" 9000 7 8 (by decide) (by decide)

/-- C10: when a well-formed `tcpip-forward` request targets an address
that already has a binding and the new bind fails, the handler has already
closed the old listener and completed the stop rendezvous before it
replies `false`, yet the registry still maps the address to the old,
now-closed listener. -/
theorem tcpipForward_bindFail_stale (st : SrvState) (payload : List Nat) (laddr : String)
    (lport : Nat) (oldLn : Nat)
    (h : unmarshalAddrPort payload = some (laddr, lport))
    (hold : lookupKey st.forwards (forwardAddr laddr lport) = some oldLn) :
    (handleRequest st "tcpip-forward" payload none).events =
      [Event.logMsg "closing old socket", Event.closeListener oldLn, Event.stopRendezvous,
       Event.logMsg ("listen failed for " ++ forwardAddr laddr lport),
       Event.reply false []] ∧
    (handleRequest st "tcpip-forward" payload none).state.forwards = st.forwards ∧
    lookupKey (handleRequest st "tcpip-forward" payload none).state.forwards
      (forwardAddr laddr lport) = some oldLn ∧
    oldLn ∈ (handleRequest st "tcpip-forward" payload none).state.closed := by
  refine ⟨?_, ?_, ?_, ?_⟩ <;> simp [handleRequest, h, hold]

theorem tcpipForward_bindFail_stale_witness :
    (handleRequest ⟨[("[]:9000", 7)], []⟩ "tcpip-forward"
        [0, 0, 0, 0, 0, 0, 35, 40] none).events =
      [Event.logMsg "closing old socket", Event.closeListener 7, Event.stopRendezvous,
       Event.logMsg ("listen failed for " ++ forwardAddr "" 9000),
       Event.reply false []] ∧
    (handleRequest ⟨[("[]:9000", 7)], []⟩ "tcpip-forward"
        [0, 0, 0, 0, 0, 0, 35, 40] none).state.forwards = [("[]:9000", 7)] ∧
    lookupKey (handleRequest ⟨[("[]:9000", 7)], []⟩ "tcpip-forward"
        [0, 0, 0, 0, 0, 0, 35, 40] none).state.forwards (forwardAddr "" 9000) = some 7 ∧
    7 ∈ (handleRequest ⟨[("[]:9000", 7)], []⟩ "tcpip-forward"
        [0, 0, 0, 0, 0, 0, 35, 40] none).state.closed :=
  tcpipForward_bindFail_stale ⟨[("[]:9000", 7)], []⟩ [0, 0, 0, 0, 0, 0, 35, 40]
    "" 9000 7 (by decide) (by decide)

end Rospo
